import Mathlib

/-!
# Verification of the Solana TPS aggregation pipeline (`src/tps.py`)

Shallow embedding of the numeric pipeline of `tps.py`:

* a fetched row of the Flipside query result is a `RawRow`
  (minute timestamp abstracted to its calendar-day index, the per-minute
  transaction counts, and the fetched `SUCCESS_RATE` column);
* pandas `NaN`-able float columns are `List (Option ℚ)`, with `none` for `NaN`;
* `load_data` (tps.py lines 8-29) adds the per-second rate columns and the
  twenty rolling-mean columns to the fetched frame;
* the module body's summary statistics (lines 46-48), the daily resample
  (lines 100-111) and the two Spearman calls (lines 113-114) are embedded as
  pure functions of the row list.

Standard errors involve a square root; they are stated throughout at the
level of their squares (for nonnegative reals, `a = b / Real.sqrt n` iff
`a ^ 2 = b ^ 2 / n`), which keeps every definition computable over `ℚ`.
-/

set_option autoImplicit false

namespace SolanaTPS

/-- One fetched row of the query result (tps.py line 12, `pd.read_json`).
`day` abstracts the minute-resolution `DATETIME` to its calendar day index,
which is all the pipeline inspects (the daily resample).  `SUCCESS_RATE` is a
column of the fetched JSON, not computed in `tps.py`; it may be `NaN`
(`none`), e.g. for a minute with no transactions. -/
structure RawRow where
  day : ℕ
  TX_COUNT : ℕ
  SUCCESS : ℕ
  FAILS : ℕ
  SUCCESS_RATE : Option ℚ
  deriving Repr, DecidableEq

/-- Modelled from the spec: the upstream Flipside query (not part of `src/`)
computes `SUCCESS_RATE` as `successful_transactions / total transactions`,
undefined (fetched as `NaN`) when the total is 0.  `tps.py` only reads the
resulting column. -/
def specSuccessRate (tx succ : ℕ) : Option ℚ :=
  if tx = 0 then none else some ((succ : ℚ) / (tx : ℚ))

/-- tps.py line 16 for `i = "TX_COUNT"`: `df["TX_COUNT_per_second"] = df["TX_COUNT"] / 60`. -/
def TX_COUNT_per_second (r : RawRow) : ℚ := (r.TX_COUNT : ℚ) / 60

/-- tps.py line 16 for `i = "SUCCESS"`. -/
def SUCCESS_per_second (r : RawRow) : ℚ := (r.SUCCESS : ℚ) / 60

/-- tps.py line 16 for `i = "FAILS"`. -/
def FAILS_per_second (r : RawRow) : ℚ := (r.FAILS : ℚ) / 60

/-- pandas `Series.rolling(w).mean()` with the default `min_periods = w`
(trailing window of width `w`; the output at position `i` is defined iff the
window `[i+1-w, i]` holds `w` observations none of which is `NaN`, and is then
their arithmetic mean). -/
def rollingMean (w : ℕ) (xs : List (Option ℚ)) : List (Option ℚ) :=
  (List.range xs.length).map fun i =>
    if i + 1 < w then none
    else
      let win := (xs.drop (i + 1 - w)).take w
      if win.all Option.isSome then some ((win.filterMap id).sum / (w : ℚ))
      else none

/-- tps.py lines 24-28: the five rolling-average columns added for one base
series (window sizes 5, 60, 60·6, 60·24, 60·24·7 minutes). -/
def rollingBlock (name : String) (s : List (Option ℚ)) :
    List (String × List (Option ℚ)) :=
  [ (name ++ "_5_min_avg", rollingMean 5 s)
  , (name ++ "_hourly_avg", rollingMean 60 s)
  , (name ++ "_6_hr_avg", rollingMean (60 * 6) s)
  , (name ++ "_daily_avg", rollingMean (60 * 24) s)
  , (name ++ "_weekly_avg", rollingMean (60 * 24 * 7) s) ]

/-- The four base series the rolling loop of tps.py lines 18-23 iterates
over, in source order: `TX_COUNT_per_second`, `SUCCESS_per_second`,
`SUCCESS_RATE`, `FAILS_per_second`. -/
def baseSeries (rows : List RawRow) : List (List (Option ℚ)) :=
  [ (rows.map TX_COUNT_per_second).map some
  , (rows.map SUCCESS_per_second).map some
  , rows.map RawRow.SUCCESS_RATE
  , (rows.map FAILS_per_second).map some ]

/-- The five rolling-window sizes of tps.py lines 24-28, in minutes. -/
def windows : List ℕ := [5, 60, 360, 1440, 10080]

/-- The loaded frame: the fetched rows plus the derived columns `load_data`
assigns (column name paired with column values).  pandas column assignment
`df[new] = ...` only ever adds to `extra`; the fetched columns live in
`raw` untouched. -/
structure DataFrame where
  raw : List RawRow
  extra : List (String × List (Option ℚ))
  deriving Repr, DecidableEq

/-- tps.py lines 8-29 (`load_data`), applied to the already-fetched rows:
adds the three per-second rate columns (lines 15-16) and then five rolling
averages for each of the four tracked series (lines 18-28). -/
def load_data (rows : List RawRow) : DataFrame :=
  { raw := rows
  , extra :=
      [ ("TX_COUNT_per_second", (rows.map TX_COUNT_per_second).map some)
      , ("SUCCESS_per_second", (rows.map SUCCESS_per_second).map some)
      , ("FAILS_per_second", (rows.map FAILS_per_second).map some) ]
      ++ rollingBlock "TX_COUNT_per_second" ((rows.map TX_COUNT_per_second).map some)
      ++ rollingBlock "SUCCESS_per_second" ((rows.map SUCCESS_per_second).map some)
      ++ rollingBlock "SUCCESS_RATE" (rows.map RawRow.SUCCESS_RATE)
      ++ rollingBlock "FAILS_per_second" ((rows.map FAILS_per_second).map some) }

/-- pandas `Series.mean()`: skips `NaN` entries; `NaN` when no entry is
defined. -/
def nanmean (xs : List (Option ℚ)) : Option ℚ :=
  let ys := xs.filterMap id
  if ys.length = 0 then none else some (ys.sum / (ys.length : ℚ))

/-- The square of pandas `Series.std()` (sample standard deviation,
`ddof = 1`, skipping `NaN` entries; `NaN` when fewer than two entries are
defined). -/
def nanvar (xs : List (Option ℚ)) : Option ℚ :=
  let ys := xs.filterMap id
  if ys.length ≤ 1 then none
  else
    let m : ℚ := (ys.length : ℚ)
    let mu := ys.sum / m
    some ((ys.map fun x => (x - mu) ^ 2).sum / (m - 1))

/-- The square of the standard error printed by tps.py lines 46-48:
`df.col.std() / np.sqrt(len(df))`, squared.  The denominator is `len(df)`,
the total number of rows, whether or not every entry of the column is
defined. -/
def summaryStderrSq (xs : List (Option ℚ)) : Option ℚ :=
  (nanvar xs).map fun v => v / (xs.length : ℚ)

/-- The calendar days covered by `df.resample("D", on="DATETIME")`
(tps.py line 100): every day from the earliest to the latest timestamp,
including days with no records (pandas emits those as all-`NaN` rows). -/
def resampleDays (rows : List RawRow) : List ℕ :=
  match rows.map RawRow.day with
  | [] => []
  | d :: ds =>
      let lo := ds.foldl min d
      let hi := ds.foldl max d
      (List.range (hi + 1 - lo)).map (· + lo)

/-- The records falling in calendar day `d`. -/
def dayRows (rows : List RawRow) (d : ℕ) : List RawRow :=
  rows.filter fun r => r.day = d

/-- tps.py lines 100-111: `df.copy().resample("D", on="DATETIME").mean()`
restricted to the three kept columns, with the day attached as the `date`
key (the index).  One entry per covered day:
`(date, Mean TPS, Mean Successful TPS, Mean Success Rate)`.  The per-day
mean is pandas `mean`, i.e. it skips `NaN` and is `NaN` for a day with no
defined entries. -/
def mean_daily (rows : List RawRow) :
    List (ℕ × Option ℚ × Option ℚ × Option ℚ) :=
  (resampleDays rows).map fun d =>
    ( d
    , nanmean ((dayRows rows d).map fun r => some (TX_COUNT_per_second r))
    , nanmean ((dayRows rows d).map fun r => some (SUCCESS_per_second r))
    , nanmean ((dayRows rows d).map RawRow.SUCCESS_RATE) )

/-- The `Mean TPS` column of `mean_daily`. -/
def meanDailyTPS (rows : List RawRow) : List (Option ℚ) :=
  (mean_daily rows).map fun e => e.2.1

/-- The `Mean Successful TPS` column of `mean_daily`. -/
def meanDailySuccTPS (rows : List RawRow) : List (Option ℚ) :=
  (mean_daily rows).map fun e => e.2.2.1

/-- The `Mean Success Rate` column of `mean_daily`. -/
def meanDailyRate (rows : List RawRow) : List (Option ℚ) :=
  (mean_daily rows).map fun e => e.2.2.2

/-- pandas-style average rank (1-based midrank) of each entry of a list:
`#{y | y < x} + (#{y | y = x} + 1) / 2`.  `scipy.stats.spearmanr` ranks both
inputs this way and then takes the Pearson correlation of the ranks. -/
def midranks (xs : List ℚ) : List ℚ :=
  xs.map fun x =>
    ((xs.countP fun y => decide (y < x) : ℕ) : ℚ)
      + (((xs.countP fun y => decide (y = x) : ℕ) : ℚ) + 1) / 2

/-- The exact content of a defined `scipy.stats.spearmanr` result.  The
correlation coefficient is `rhoNum / Real.sqrt rhoDenSq` (Pearson on
midranks: rank covariance over the square root of the product of the rank
variances), kept in this exact rational form to stay computable; the
two-sided p-value is determined by the coefficient together with `dof = n - 2`
degrees of freedom of the Student t distribution, and is likewise kept in
parametric form (its numeric value is transcendental). -/
structure SpearmanResult where
  rhoNum : ℚ
  rhoDenSq : ℚ
  dof : ℕ
  deriving Repr, DecidableEq

/-- `scipy.stats.spearmanr` (tps.py lines 113-114) on two columns:
with one or fewer observations it returns `(nan, nan)`; with the default
`nan_policy="propagate"` any `NaN` input also yields `(nan, nan)`; otherwise
the coefficient and p-value are defined and `none`/`some` stands for the
`NaN`/defined split of both returned floats. -/
def spearmanr (xs ys : List (Option ℚ)) : Option SpearmanResult :=
  if xs.length ≤ 1 ∨ ys.length ≤ 1 then none
  else if (xs.any fun a => a.isNone) ∨ (ys.any fun a => a.isNone) then none
  else
    let rx := midranks (xs.filterMap id)
    let ry := midranks (ys.filterMap id)
    let n : ℚ := (rx.length : ℚ)
    let mx := rx.sum / n
    let my := ry.sum / n
    some
      { rhoNum := (List.zipWith (fun a b => (a - mx) * (b - my)) rx ry).sum
      , rhoDenSq :=
          ((rx.map fun a => (a - mx) ^ 2).sum)
            * ((ry.map fun b => (b - my) ^ 2).sum)
      , dof := xs.length - 2 }

/-- tps.py lines 113-114: the two (and only two) correlation computations,
in source order — `spearmanr(mean_daily["Mean TPS"], mean_daily["Mean
Successful TPS"])` and `spearmanr(mean_daily["Mean TPS"], mean_daily["Mean
Success Rate"])`. -/
def corrResults (rows : List RawRow) :
    Option SpearmanResult × Option SpearmanResult :=
  ( spearmanr (meanDailyTPS rows) (meanDailySuccTPS rows)
  , spearmanr (meanDailyTPS rows) (meanDailyRate rows) )

/-- Everything the script computes from the fetched rows and hands to the
rendering layer: the transformed frame, the three narrative summary pairs of
lines 46-48 (mean, squared standard error), the daily table and the two
correlations. -/
structure Output where
  df : DataFrame
  avgTPS : Option ℚ × Option ℚ
  avgSuccTPS : Option ℚ × Option ℚ
  avgRate : Option ℚ × Option ℚ
  daily : List (ℕ × Option ℚ × Option ℚ × Option ℚ)
  corrs : Option SpearmanResult × Option SpearmanResult
  deriving Repr, DecidableEq

/-- The whole transform stage: fetched rows to rendered numbers. -/
def render (rows : List RawRow) : Output :=
  { df := load_data rows
  , avgTPS :=
      ( nanmean ((rows.map TX_COUNT_per_second).map some)
      , summaryStderrSq ((rows.map TX_COUNT_per_second).map some) )
  , avgSuccTPS :=
      ( nanmean ((rows.map SUCCESS_per_second).map some)
      , summaryStderrSq ((rows.map SUCCESS_per_second).map some) )
  , avgRate :=
      ( nanmean (rows.map RawRow.SUCCESS_RATE)
      , summaryStderrSq (rows.map RawRow.SUCCESS_RATE) )
  , daily := mean_daily rows
  , corrs := corrResults rows }

/-- The whole session: the single fetch of tps.py line 12 either yields the
rows or fails; `load_data` and everything after it runs only on a successful
fetch, so a fetch or parse failure aborts the run with the error and produces
no output at all (there is no handler and no retry in the script). -/
def runPipeline (fetch : Except String (List RawRow)) : Except String Output :=
  fetch.map render

/-! ## Spec-side recomputation formulas

Used to compare the code's summary statistics against the spec's direct
recomputation (`mean = sum/n`, `stderr = stddev/sqrt(n)`); written over the
plain list of (defined) values, in a different algebraic form than the
pandas embedding above. -/

/-- Direct recomputation of a mean: `sum / n`. -/
def specMean (ys : List ℚ) : ℚ := ys.sum / (ys.length : ℚ)

/-- Direct recomputation of the squared sample standard deviation
(`ddof = 1`), in sum-of-squares form:
`(n·Σx² − (Σx)²) / (n·(n−1))`. -/
def specVarSq (ys : List ℚ) : ℚ :=
  let n : ℚ := (ys.length : ℚ)
  (n * (ys.map fun x => x ^ 2).sum - ys.sum ^ 2) / (n * (n - 1))

/-- The mean of a window all of whose entries are defined; undefined as soon
as one entry is undefined (the claims' reading of an "arithmetic mean of the
inputs" when an input can be `NaN`). -/
def meanOpt (win : List (Option ℚ)) : Option ℚ :=
  if win.all Option.isSome then
    some ((win.filterMap id).sum / (win.length : ℚ))
  else none

/-- The three-row example dataset of the spec's zero-total test property:
total counts `[60, 120, 0]`, success counts `[60, 60, 0]`, with the
`SUCCESS_RATE` column as the upstream query would deliver it. -/
def exRows3 : List RawRow :=
  [ ⟨0, 60, 60, 0, specSuccessRate 60 60⟩
  , ⟨0, 120, 60, 60, specSuccessRate 120 60⟩
  , ⟨0, 0, 0, 0, specSuccessRate 0 0⟩ ]

/-- A seven-row dataset whose total-rate series is `[1, 2, 3, 4, 5, 6, 7]`
TPS (total counts `60·k`), used to exercise the spec's rolling-mean example
on the pipeline's own base series. -/
def exRows7 : List RawRow :=
  (List.range 7).map fun k =>
    ⟨0, 60 * (k + 1), 60 * (k + 1), 0, specSuccessRate (60 * (k + 1)) (60 * (k + 1))⟩

end SolanaTPS

namespace SolanaTPS

/-! ## Helper lemmas -/

theorem length_rollingMean (w : ℕ) (xs : List (Option ℚ)) :
    (rollingMean w xs).length = xs.length := by
  simp [rollingMean]

theorem getElem?_rollingMean (w : ℕ) (xs : List (Option ℚ)) (i : ℕ)
    (hi : i < xs.length) :
    (rollingMean w xs)[i]? =
      some (if i + 1 < w then none
        else
          let win := (xs.drop (i + 1 - w)).take w
          if win.all Option.isSome then some ((win.filterMap id).sum / (w : ℚ))
          else none) := by
  simp [rollingMean, List.getElem?_map, List.getElem?_range, hi]

theorem length_take_window (w : ℕ) (xs : List (Option ℚ)) (i : ℕ)
    (hi : i < xs.length) (hw : w ≤ i + 1) :
    ((xs.drop (i + 1 - w)).take w).length = w := by
  simp only [List.length_take, List.length_drop]
  omega

theorem filterMap_id_map_some (l : List ℚ) :
    (l.map (some : ℚ → Option ℚ)).filterMap id = l := by
  induction l with
  | nil => rfl
  | cons x xs ih => simp [ih]

theorem length_filterMap_of_all_isSome (xs : List (Option ℚ))
    (h : xs.all Option.isSome) :
    (xs.filterMap id).length = xs.length := by
  induction xs with
  | nil => rfl
  | cons a as ih =>
      simp only [List.all_cons, Bool.and_eq_true] at h
      cases a with
      | none => simp at h
      | some q => simp [List.filterMap_cons, ih h.2]

theorem sum_map_sub_sq (ys : List ℚ) (mu : ℚ) :
    (ys.map fun x => (x - mu) ^ 2).sum
      = (ys.map fun x => x ^ 2).sum - 2 * mu * ys.sum
          + (ys.length : ℚ) * mu ^ 2 := by
  induction ys with
  | nil => simp
  | cons a as ih =>
      simp only [List.map_cons, List.sum_cons, List.length_cons, ih]
      push_cast
      ring

theorem nanvar_eq_specVarSq (xs : List (Option ℚ))
    (h : 2 ≤ (xs.filterMap id).length) :
    nanvar xs = some (specVarSq (xs.filterMap id)) := by
  unfold nanvar specVarSq
  rw [if_neg (by omega)]
  dsimp only
  congr 1
  have hn : ((xs.filterMap id).length : ℚ) ≠ 0 :=
    Nat.cast_ne_zero.mpr (by omega)
  have hn1 : ((xs.filterMap id).length : ℚ) - 1 ≠ 0 := by
    have h2q : (2 : ℚ) ≤ ((xs.filterMap id).length : ℚ) := by exact_mod_cast h
    intro hc
    linarith
  rw [sum_map_sub_sq (xs.filterMap id)
        ((xs.filterMap id).sum / ((xs.filterMap id).length : ℚ))]
  field_simp
  ring

/-- The spec's direct-recomputation reading of the summary statistics of one
column: the mean is `sum / n` and the squared standard error is
`stddev² / n`, where `n` is the number of values of the series and the
values of the series are its defined entries. -/
def specSummaryOK (xs : List (Option ℚ)) : Prop :=
  nanmean xs = some (specMean (xs.filterMap id))
  ∧ summaryStderrSq xs
      = some (specVarSq (xs.filterMap id) / ((xs.filterMap id).length : ℚ))

theorem specSummaryOK_of_all_isSome (xs : List (Option ℚ))
    (hall : xs.all Option.isSome) (h2 : 2 ≤ xs.length) : specSummaryOK xs := by
  have hlen := length_filterMap_of_all_isSome xs hall
  constructor
  · unfold nanmean specMean
    rw [if_neg (by omega)]
  · unfold summaryStderrSq
    rw [nanvar_eq_specVarSq xs (by omega)]
    simp only [Option.map_some']
    rw [hlen]

theorem filterMap_id_map_some_comp {α : Type} (f : α → ℚ) (l : List α) :
    ((l.map fun r => some (f r)).filterMap id) = l.map f := by
  induction l with
  | nil => rfl
  | cons x xs ih => simp [ih]

theorem nanmean_eq (xs : List (Option ℚ)) :
    nanmean xs = if (xs.filterMap id).length = 0 then none
      else some ((xs.filterMap id).sum / ((xs.filterMap id).length : ℚ)) := rfl

theorem nanmean_map_some_of_ne_nil {α : Type} (f : α → ℚ) (l : List α)
    (hne : l ≠ []) :
    nanmean (l.map fun r => some (f r))
      = some ((l.map f).sum / (l.length : ℚ)) := by
  rw [nanmean_eq, filterMap_id_map_some_comp]
  rw [if_neg (by simpa [List.length_eq_zero] using hne)]
  simp

theorem nanmean_of_all_isSome (xs : List (Option ℚ))
    (hall : xs.all Option.isSome) (hne : xs ≠ []) :
    nanmean xs = some ((xs.filterMap id).sum / (xs.length : ℚ)) := by
  have hfl := length_filterMap_of_all_isSome xs hall
  rw [nanmean_eq, if_neg (by rw [hfl]; simpa [List.length_eq_zero] using hne), hfl]

theorem countValid_of_all_isSome (xs ys : List (Option ℚ))
    (hx : ∀ a ∈ xs, a.isSome) (hy : ∀ b ∈ ys, b.isSome) :
    (List.zipWith (fun a b : Option ℚ => a.isSome && b.isSome) xs ys).count true
      = min xs.length ys.length := by
  induction xs generalizing ys with
  | nil => simp
  | cons a as ih =>
      cases ys with
      | nil => simp
      | cons b bs =>
          have ha := hx a (by simp)
          have hb := hy b (by simp)
          have hrec := ih bs (fun x hx' => hx x (List.mem_cons_of_mem a hx'))
            (fun y hy' => hy y (List.mem_cons_of_mem b hy'))
          simp only [List.zipWith_cons_cons, ha, hb, Bool.and_self,
            List.count_cons, List.length_cons, hrec, if_pos]
          simp
          omega

theorem spearmanr_none_of_few_valid (xs ys : List (Option ℚ))
    (h : (List.zipWith (fun a b : Option ℚ => a.isSome && b.isSome) xs ys).count
          true < 2) :
    spearmanr xs ys = none := by
  unfold spearmanr
  by_cases h1 : xs.length ≤ 1 ∨ ys.length ≤ 1
  · rw [if_pos h1]
  · rw [if_neg h1]
    push_neg at h1
    have hnone : (xs.any fun a => a.isNone) ∨ (ys.any fun a => a.isNone) := by
      by_contra hc
      push_neg at hc
      have hx : ∀ a ∈ xs, a.isSome := by
        intro a ha
        cases a with
        | none => exact absurd ha (by simpa using hc.1)
        | some q => rfl
      have hy : ∀ b ∈ ys, b.isSome := by
        intro b hb
        cases b with
        | none => exact absurd hb (by simpa using hc.2)
        | some q => rfl
      have hcount := countValid_of_all_isSome xs ys hx hy
      omega
    rw [if_pos hnone]

/-! ## Claims -/

/-- C1: for each of the four tracked base series and each rolling window
size `w ∈ {5, 60, 360, 1440, 10080}`, the rolling-mean output at every index
`i ≥ w−1` is the trailing arithmetic mean of the inputs at positions
`[i−w+1, i]` (undefined exactly when an input there is undefined), the
output at every index `i < w−1` is undefined — `NaN`, not zero — and the
5-wide rolling mean of the series `[1,2,3,4,5,6,7]` (the total-rate base
series of the dataset `exRows7`) is undefined at indices 0-3 and
`[3, 4, 5]` at indices 4-6. -/
theorem claim_C1 (rows : List RawRow) (s : List (Option ℚ))
    (hs : s ∈ baseSeries rows) (w : ℕ) (hw : w ∈ windows)
    (i : ℕ) (hi : i < s.length) :
    (w ≤ i + 1 →
      (rollingMean w s)[i]? = some (meanOpt ((s.drop (i + 1 - w)).take w)))
    ∧ (i + 1 < w → (rollingMean w s)[i]? = some none)
    ∧ rollingMean 5 (([1, 2, 3, 4, 5, 6, 7] : List ℚ).map some)
        = [none, none, none, none, some 3, some 4, some 5]
    ∧ (exRows7.map TX_COUNT_per_second).map some
        = ([1, 2, 3, 4, 5, 6, 7] : List ℚ).map some := by
  refine ⟨?_, ?_, ?_, ?_⟩
  · intro hw'
    rw [getElem?_rollingMean w s i hi]
    have hlen := length_take_window w s i hi hw'
    have hnot : ¬ (i + 1 < w) := by omega
    simp only [hnot, if_false, meanOpt, hlen]
  · intro hlt
    rw [getElem?_rollingMean w s i hi]
    simp [hlt]
  · simp [rollingMean, List.range_succ]
    norm_num
  · simp [exRows7, TX_COUNT_per_second, List.range_succ]
    norm_num

/-- Witness for C1: the total-rate base series of `exRows7` at window 5 and
index 4. -/
theorem claim_C1_witness :
    ((exRows7.map TX_COUNT_per_second).map some ∈ baseSeries exRows7
      ∧ 5 ∈ windows
      ∧ 4 < ((exRows7.map TX_COUNT_per_second).map some).length)
    ∧ ((5 ≤ 4 + 1 →
        (rollingMean 5 ((exRows7.map TX_COUNT_per_second).map some))[4]?
          = some (meanOpt
              ((((exRows7.map TX_COUNT_per_second).map some).drop (4 + 1 - 5)).take 5)))
      ∧ (4 + 1 < 5 →
          (rollingMean 5 ((exRows7.map TX_COUNT_per_second).map some))[4]?
            = some none)
      ∧ rollingMean 5 (([1, 2, 3, 4, 5, 6, 7] : List ℚ).map some)
          = [none, none, none, none, some 3, some 4, some 5]
      ∧ (exRows7.map TX_COUNT_per_second).map some
          = ([1, 2, 3, 4, 5, 6, 7] : List ℚ).map some) :=
  ⟨⟨by simp [baseSeries], by simp [windows], by simp [exRows7]⟩,
    claim_C1 exRows7 ((exRows7.map TX_COUNT_per_second).map some)
      (by simp [baseSeries]) 5 (by simp [windows]) 4 (by simp [exRows7])⟩

/-- C3 counterexample: the claim that mean and standard error of every
summary column match `sum/n` and `stddev/√n` (with `n` the number of values
of the series) fails on the three-row dataset `exRows3`, whose success-ratio
column is `[1, 1/2, NaN]`: the code divides the ratio column's sample
standard deviation by `√3` (`len(df)`), not by `√2` (the number of values),
so the squared standard error is `1/24`, not `1/16`. -/
theorem claim_C3_counterexample :
    ¬ (specSummaryOK ((exRows3.map TX_COUNT_per_second).map some)
       ∧ specSummaryOK ((exRows3.map SUCCESS_per_second).map some)
       ∧ specSummaryOK (exRows3.map RawRow.SUCCESS_RATE)) := by
  intro h
  have hx := h.2.2.2
  norm_num [exRows3, specSuccessRate, summaryStderrSq, nanvar, specVarSq,
    specMean, List.filterMap] at hx

/-- C3 as amended: for the total-rate and success-rate columns (and for any
column with every entry defined) the summary statistics match the direct
recomputation `mean = sum/n`, `stderr² = stddev²/n` exactly; for the
success-ratio column the mean is still `sum/n` over the defined entries, but
the standard-error denominator is `√len(df)` — the total number of rows,
undefined entries included — rather than `√n` over the `n` defined values.
(At least two rows, resp. two defined entries, are needed for the standard
deviation to be defined at all.) -/
theorem claim_C3_amended (rows : List RawRow) (h2 : 2 ≤ rows.length) :
    specSummaryOK ((rows.map TX_COUNT_per_second).map some)
    ∧ specSummaryOK ((rows.map SUCCESS_per_second).map some)
    ∧ ((rows.map RawRow.SUCCESS_RATE).filterMap id ≠ [] →
        nanmean (rows.map RawRow.SUCCESS_RATE)
          = some (specMean ((rows.map RawRow.SUCCESS_RATE).filterMap id)))
    ∧ (2 ≤ ((rows.map RawRow.SUCCESS_RATE).filterMap id).length →
        summaryStderrSq (rows.map RawRow.SUCCESS_RATE)
          = some (specVarSq ((rows.map RawRow.SUCCESS_RATE).filterMap id)
              / (rows.length : ℚ)))
    ∧ ((rows.map RawRow.SUCCESS_RATE).all Option.isSome →
        specSummaryOK (rows.map RawRow.SUCCESS_RATE)) := by
  refine ⟨?_, ?_, ?_, ?_, ?_⟩
  · exact specSummaryOK_of_all_isSome _ (by simp) (by simpa using h2)
  · exact specSummaryOK_of_all_isSome _ (by simp) (by simpa using h2)
  · intro hne
    unfold nanmean specMean
    rw [if_neg (by simpa [List.length_eq_zero] using hne)]
  · intro hd2
    unfold summaryStderrSq
    rw [nanvar_eq_specVarSq _ hd2]
    simp only [Option.map_some']
    rw [List.length_map]
  · intro hall
    exact specSummaryOK_of_all_isSome _ hall (by simpa using h2)

/-- Witness for the amended C3 at the dataset `exRows3`. -/
theorem claim_C3_witness :
    2 ≤ exRows3.length
    ∧ (specSummaryOK ((exRows3.map TX_COUNT_per_second).map some)
      ∧ specSummaryOK ((exRows3.map SUCCESS_per_second).map some)
      ∧ ((exRows3.map RawRow.SUCCESS_RATE).filterMap id ≠ [] →
          nanmean (exRows3.map RawRow.SUCCESS_RATE)
            = some (specMean ((exRows3.map RawRow.SUCCESS_RATE).filterMap id)))
      ∧ (2 ≤ ((exRows3.map RawRow.SUCCESS_RATE).filterMap id).length →
          summaryStderrSq (exRows3.map RawRow.SUCCESS_RATE)
            = some (specVarSq ((exRows3.map RawRow.SUCCESS_RATE).filterMap id)
                / (exRows3.length : ℚ)))
      ∧ ((exRows3.map RawRow.SUCCESS_RATE).all Option.isSome →
          specSummaryOK (exRows3.map RawRow.SUCCESS_RATE))) :=
  ⟨by simp [exRows3], claim_C3_amended exRows3 (by simp [exRows3])⟩

/-- C8: the whole-period summary of the success-ratio column skips the
undefined entries — the mean and the (sample, `ddof = 1`) standard deviation
are computed over the defined entries only, never treating an undefined entry
as zero — while the standard-error denominator is the square root of the
total number of rows, undefined entries included. -/
theorem claim_C8 (rows : List RawRow) :
    ((rows.map RawRow.SUCCESS_RATE).filterMap id ≠ [] →
      nanmean (rows.map RawRow.SUCCESS_RATE)
        = some (((rows.map RawRow.SUCCESS_RATE).filterMap id).sum
            / (((rows.map RawRow.SUCCESS_RATE).filterMap id).length : ℚ)))
    ∧ ((rows.map RawRow.SUCCESS_RATE).filterMap id = [] →
        nanmean (rows.map RawRow.SUCCESS_RATE) = none)
    ∧ (2 ≤ ((rows.map RawRow.SUCCESS_RATE).filterMap id).length →
        nanvar (rows.map RawRow.SUCCESS_RATE)
          = some (specVarSq ((rows.map RawRow.SUCCESS_RATE).filterMap id)))
    ∧ (((rows.map RawRow.SUCCESS_RATE).filterMap id).length ≤ 1 →
        nanvar (rows.map RawRow.SUCCESS_RATE) = none)
    ∧ summaryStderrSq (rows.map RawRow.SUCCESS_RATE)
        = (nanvar (rows.map RawRow.SUCCESS_RATE)).map
            (fun v => v / (rows.length : ℚ)) := by
  refine ⟨?_, ?_, ?_, ?_, ?_⟩
  · intro hne
    unfold nanmean
    rw [if_neg (by simpa [List.length_eq_zero] using hne)]
  · intro he
    unfold nanmean
    rw [he]
    simp
  · exact fun hd2 => nanvar_eq_specVarSq _ hd2
  · intro hle
    unfold nanvar
    rw [if_pos hle]
  · unfold summaryStderrSq
    rw [List.length_map]

/-- Witness for C8 at the dataset `exRows3` (success-ratio column
`[1, 1/2, NaN]`). -/
theorem claim_C8_witness :
    ((exRows3.map RawRow.SUCCESS_RATE).filterMap id ≠ [] →
      nanmean (exRows3.map RawRow.SUCCESS_RATE)
        = some (((exRows3.map RawRow.SUCCESS_RATE).filterMap id).sum
            / (((exRows3.map RawRow.SUCCESS_RATE).filterMap id).length : ℚ)))
    ∧ ((exRows3.map RawRow.SUCCESS_RATE).filterMap id = [] →
        nanmean (exRows3.map RawRow.SUCCESS_RATE) = none)
    ∧ (2 ≤ ((exRows3.map RawRow.SUCCESS_RATE).filterMap id).length →
        nanvar (exRows3.map RawRow.SUCCESS_RATE)
          = some (specVarSq ((exRows3.map RawRow.SUCCESS_RATE).filterMap id)))
    ∧ (((exRows3.map RawRow.SUCCESS_RATE).filterMap id).length ≤ 1 →
        nanvar (exRows3.map RawRow.SUCCESS_RATE) = none)
    ∧ summaryStderrSq (exRows3.map RawRow.SUCCESS_RATE)
        = (nanvar (exRows3.map RawRow.SUCCESS_RATE)).map
            (fun v => v / (exRows3.length : ℚ)) :=
  claim_C8 exRows3

/-- C4: every entry of the daily-resampled table belongs to a covered
calendar day (the day attached as the table's key); for a day with records
the entry's total-rate, success-rate and success-ratio values are the
arithmetic means of those records' values (the ratio mean whenever each of
those records has a defined ratio); and for a covered day with zero records
all three values are undefined — never zero. -/
theorem claim_C4 (rows : List RawRow)
    (e : ℕ × Option ℚ × Option ℚ × Option ℚ) (he : e ∈ mean_daily rows) :
    e.1 ∈ resampleDays rows
    ∧ (dayRows rows e.1 ≠ [] →
        e.2.1 = some (((dayRows rows e.1).map TX_COUNT_per_second).sum
            / ((dayRows rows e.1).length : ℚ))
        ∧ e.2.2.1 = some (((dayRows rows e.1).map SUCCESS_per_second).sum
            / ((dayRows rows e.1).length : ℚ))
        ∧ (((dayRows rows e.1).map RawRow.SUCCESS_RATE).all Option.isSome →
            e.2.2.2 = some
              ((((dayRows rows e.1).map RawRow.SUCCESS_RATE).filterMap id).sum
                / ((dayRows rows e.1).length : ℚ))))
    ∧ (dayRows rows e.1 = [] →
        e.2.1 = none ∧ e.2.2.1 = none ∧ e.2.2.2 = none) := by
  simp only [mean_daily] at he
  obtain ⟨d, hd, rfl⟩ := List.mem_map.mp he
  dsimp only
  refine ⟨hd, ?_, ?_⟩
  · intro hne
    refine ⟨?_, ?_, ?_⟩
    · exact nanmean_map_some_of_ne_nil TX_COUNT_per_second (dayRows rows d) hne
    · exact nanmean_map_some_of_ne_nil SUCCESS_per_second (dayRows rows d) hne
    · intro hall
      rw [nanmean_of_all_isSome _ hall (by simpa using hne)]
      simp
  · intro hemp
    rw [hemp]
    refine ⟨rfl, rfl, rfl⟩

/-- Witness for C4: the dataset with days 3 and 5 populated covers the empty
day 4 with an all-undefined entry and averages day 3's two records. -/
theorem claim_C4_witness :
    ((4, (none : Option ℚ), (none : Option ℚ), (none : Option ℚ))
        ∈ mean_daily [⟨3, 60, 30, 30, specSuccessRate 60 30⟩,
            ⟨5, 120, 60, 60, specSuccessRate 120 60⟩,
            ⟨3, 0, 0, 0, specSuccessRate 0 0⟩])
    ∧ (4 ∈ resampleDays [⟨3, 60, 30, 30, specSuccessRate 60 30⟩,
          ⟨5, 120, 60, 60, specSuccessRate 120 60⟩,
          ⟨3, 0, 0, 0, specSuccessRate 0 0⟩]
      ∧ (dayRows [⟨3, 60, 30, 30, specSuccessRate 60 30⟩,
            ⟨5, 120, 60, 60, specSuccessRate 120 60⟩,
            ⟨3, 0, 0, 0, specSuccessRate 0 0⟩] 4 = [] →
          (none : Option ℚ) = none ∧ (none : Option ℚ) = none
            ∧ (none : Option ℚ) = none)) := by
  have h := claim_C4 [⟨3, 60, 30, 30, specSuccessRate 60 30⟩,
      ⟨5, 120, 60, 60, specSuccessRate 120 60⟩,
      ⟨3, 0, 0, 0, specSuccessRate 0 0⟩] (4, none, none, none)
    (by simp [mean_daily, resampleDays, dayRows, nanmean, List.range_succ,
      List.filter])
  exact ⟨by simp [mean_daily, resampleDays, dayRows, nanmean, List.range_succ,
      List.filter], h.1, h.2.2⟩

/-- C5: the pipeline computes Spearman correlations for exactly the two
pairings of tps.py lines 113-114 — daily mean TPS against daily mean
successful TPS, and daily mean TPS against daily mean success rate — and a
Spearman computation over fewer than 2 valid (defined) paired points yields
the undefined result `(NaN, NaN)` rather than raising. -/
theorem claim_C5 (rows : List RawRow) (xs ys : List (Option ℚ))
    (hfew : (List.zipWith (fun a b : Option ℚ => a.isSome && b.isSome) xs ys).count
        true < 2) :
    corrResults rows
      = (spearmanr (meanDailyTPS rows) (meanDailySuccTPS rows),
         spearmanr (meanDailyTPS rows) (meanDailyRate rows))
    ∧ spearmanr xs ys = none :=
  ⟨rfl, spearmanr_none_of_few_valid xs ys hfew⟩

/-- Witness for C5: two paired daily points of which only one is valid. -/
theorem claim_C5_witness :
    (List.zipWith (fun a b : Option ℚ => a.isSome && b.isSome)
        [some 1, none] [some 2, some 3]).count true < 2
    ∧ (corrResults exRows3
        = (spearmanr (meanDailyTPS exRows3) (meanDailySuccTPS exRows3),
           spearmanr (meanDailyTPS exRows3) (meanDailyRate exRows3))
      ∧ spearmanr [some 1, none] [some 2, some 3] = none) :=
  ⟨by simp, claim_C5 exRows3 [some 1, none] [some 2, some 3] (by simp)⟩

/-- C7: pandas `rolling(w).mean()` leaves `min_periods` at its default `w`,
so a window containing any undefined (`NaN`) input yields an undefined
output — the undefined entry is propagated for the whole window, not
skipped: concretely, `rolling(2).mean()` of `[1, NaN, 2]` is
`[NaN, NaN, NaN]` (skipping would have produced values at indices 1 and 2). -/
theorem claim_C7 (w : ℕ) (xs : List (Option ℚ)) (i j : ℕ)
    (hi : i < xs.length) (hji : j ≤ i) (hwin : i < j + w)
    (hnan : xs[j]? = some none) :
    (rollingMean w xs)[i]? = some none
    ∧ rollingMean 2 [some 1, none, some 2] = [none, none, none] := by
  constructor
  · rw [getElem?_rollingMean w xs i hi]
    by_cases hlt : i + 1 < w
    · simp [hlt]
    · have hwle : w ≤ i + 1 := by omega
      have hk : ((xs.drop (i + 1 - w)).take w)[j - (i + 1 - w)]? = some none := by
        rw [List.getElem?_take, if_pos (by omega), List.getElem?_drop]
        rw [show i + 1 - w + (j - (i + 1 - w)) = j by omega]
        exact hnan
      obtain ⟨hjlt, hget⟩ := List.getElem?_eq_some_iff.mp hk
      have hmem : (none : Option ℚ) ∈ (xs.drop (i + 1 - w)).take w := by
        rw [← hget]; exact List.getElem_mem hjlt
      have hall : ¬ ((xs.drop (i + 1 - w)).take w).all Option.isSome = true := by
        intro h
        have := List.all_eq_true.mp h none hmem
        simp at this
      simp only [hlt, if_false, hall]
      simp
  · simp [rollingMean, List.range_succ]

/-- Witness for C7: the 2-wide rolling mean of `[1, NaN, 2]` at index 2,
whose window contains the `NaN` at index 1. -/
theorem claim_C7_witness :
    (2 < ([some 1, none, some 2] : List (Option ℚ)).length
      ∧ 1 ≤ 2 ∧ 2 < 1 + 2
      ∧ ([some 1, none, some 2] : List (Option ℚ))[1]? = some none)
    ∧ (rollingMean 2 [some 1, none, some 2])[2]? = some none
    ∧ rollingMean 2 [some 1, none, some 2] = [none, none, none] :=
  ⟨⟨by simp, by omega, by omega, rfl⟩,
    claim_C7 2 [some 1, none, some 2] 2 1 (by simp) (by omega) (by omega) rfl⟩

/-- C2: for every input row the pipeline derives three per-second rates —
total, success and fail — each exactly the per-minute count divided by 60,
each column the same length as the input, and all three columns are part of
the loaded frame. -/
theorem claim_C2 (rows : List RawRow) :
    ((rows.map TX_COUNT_per_second).length = rows.length
      ∧ (rows.map SUCCESS_per_second).length = rows.length
      ∧ (rows.map FAILS_per_second).length = rows.length)
    ∧ (∀ i : ℕ,
        (rows.map TX_COUNT_per_second)[i]?
            = (rows[i]?).map (fun r => (r.TX_COUNT : ℚ) / 60)
        ∧ (rows.map SUCCESS_per_second)[i]?
            = (rows[i]?).map (fun r => (r.SUCCESS : ℚ) / 60)
        ∧ (rows.map FAILS_per_second)[i]?
            = (rows[i]?).map (fun r => (r.FAILS : ℚ) / 60))
    ∧ ("TX_COUNT_per_second", (rows.map TX_COUNT_per_second).map some)
        ∈ (load_data rows).extra
    ∧ ("SUCCESS_per_second", (rows.map SUCCESS_per_second).map some)
        ∈ (load_data rows).extra
    ∧ ("FAILS_per_second", (rows.map FAILS_per_second).map some)
        ∈ (load_data rows).extra := by
  refine ⟨⟨by simp, by simp, by simp⟩, fun i => ⟨?_, ?_, ?_⟩, ?_, ?_, ?_⟩
  · simp only [List.getElem?_map]; rfl
  · simp only [List.getElem?_map]; rfl
  · simp only [List.getElem?_map]; rfl
  · simp [load_data]
  · simp [load_data]
  · simp [load_data]

/-- C6: a row with total count 0 has an undefined (`NaN`) success ratio —
never a silent 0 — and on the three-minute example with totals
`[60, 120, 0]` and successes `[60, 60, 0]` the pipeline's per-second total
rates are `[1, 2, 0]`, per-second success rates `[1, 1, 0]`, and success
ratios `[1, 1/2, undefined]`. -/
theorem claim_C6 (r : RawRow)
    (hmodel : r.SUCCESS_RATE = specSuccessRate r.TX_COUNT r.SUCCESS)
    (h0 : r.TX_COUNT = 0) :
    (r.SUCCESS_RATE = none ∧ ∀ q : ℚ, r.SUCCESS_RATE ≠ some q)
    ∧ exRows3.map TX_COUNT_per_second = [1, 2, 0]
    ∧ exRows3.map SUCCESS_per_second = [1, 1, 0]
    ∧ exRows3.map RawRow.SUCCESS_RATE = [some 1, some (1 / 2), none] := by
  refine ⟨⟨?_, ?_⟩, ?_, ?_, ?_⟩
  · rw [hmodel, specSuccessRate, if_pos h0]
  · rw [hmodel, specSuccessRate, if_pos h0]; exact fun q h => Option.noConfusion h
  · norm_num [exRows3, TX_COUNT_per_second]
  · norm_num [exRows3, SUCCESS_per_second]
  · norm_num [exRows3, specSuccessRate]

/-- Witness for C6 at the example's zero-total row. -/
theorem claim_C6_witness :
    ((⟨0, 0, 0, 0, specSuccessRate 0 0⟩ : RawRow).SUCCESS_RATE
        = specSuccessRate 0 0
      ∧ (⟨0, 0, 0, 0, specSuccessRate 0 0⟩ : RawRow).TX_COUNT = 0)
    ∧ ((⟨0, 0, 0, 0, specSuccessRate 0 0⟩ : RawRow).SUCCESS_RATE = none
        ∧ ∀ q : ℚ, (⟨0, 0, 0, 0, specSuccessRate 0 0⟩ : RawRow).SUCCESS_RATE
            ≠ some q)
      ∧ exRows3.map TX_COUNT_per_second = [1, 2, 0]
      ∧ exRows3.map SUCCESS_per_second = [1, 1, 0]
      ∧ exRows3.map RawRow.SUCCESS_RATE = [some 1, some (1 / 2), none] :=
  ⟨⟨rfl, rfl⟩, claim_C6 ⟨0, 0, 0, 0, specSuccessRate 0 0⟩ rfl rfl⟩

/-- C9: a failed fetch aborts the whole run — the pipeline's result is
exactly the fetch error, no output (not even a partial one) is produced, and
an output can only arise from the one successful fetch value, transformed
once. -/
theorem claim_C9 (e : String) (fetch : Except String (List RawRow)) :
    runPipeline (Except.error e) = Except.error e
    ∧ (∀ o : Output, runPipeline fetch = Except.ok o →
        ∃ rows : List RawRow, fetch = Except.ok rows ∧ o = render rows) := by
  constructor
  · rfl
  · intro o ho
    cases fetch with
    | error err => exact absurd ho (by simp [runPipeline, Except.map])
    | ok rows =>
        refine ⟨rows, rfl, ?_⟩
        simpa [runPipeline, Except.map] using ho.symm

/-- Witness for C9: an error fetch yields exactly that error, and the sole
output of a successful fetch of the example rows is its transform. -/
theorem claim_C9_witness :
    runPipeline (Except.error "boom") = Except.error "boom"
    ∧ (runPipeline (Except.ok exRows3) = Except.ok (render exRows3)
        → ∃ rows : List RawRow,
            (Except.ok exRows3 : Except String (List RawRow)) = Except.ok rows
              ∧ render exRows3 = render rows) :=
  ⟨(claim_C9 "boom" (Except.ok exRows3)).1,
    fun h => (claim_C9 "boom" (Except.ok exRows3)).2 (render exRows3) h⟩

/-- C10: the transform only adds derived columns; every fetched column of
the loaded frame — timestamp day, total, success and fail counts, and the
fetched success ratio — holds exactly the fetched values, and the summary,
resampling and correlation stages consume the same untouched frame. -/
theorem claim_C10 (rows : List RawRow) :
    (load_data rows).raw = rows
    ∧ (render rows).df = load_data rows
    ∧ (load_data rows).raw.map RawRow.day = rows.map RawRow.day
    ∧ (load_data rows).raw.map RawRow.TX_COUNT = rows.map RawRow.TX_COUNT
    ∧ (load_data rows).raw.map RawRow.SUCCESS = rows.map RawRow.SUCCESS
    ∧ (load_data rows).raw.map RawRow.FAILS = rows.map RawRow.FAILS
    ∧ (load_data rows).raw.map RawRow.SUCCESS_RATE
        = rows.map RawRow.SUCCESS_RATE :=
  ⟨rfl, rfl, rfl, rfl, rfl, rfl, rfl⟩

end SolanaTPS
